import Mathlib

/-!
Verification of the bounding-box resolver inside `plot_path_from_above`
(src/magikeda/geo.py) and of the distance helpers `haversine`,
`_lineMagnitude` and `distance_from_point_to_segment` of the same module.

The box computation (geo.py lines 52-90) is embedded over exact rationals,
with an explicit NaN value mirroring the pandas/NumPy float semantics of
`Series.min()`/`Series.max()` on an empty series (they return NaN, they do
not raise).  The distance helpers are embedded over the reals.
-/

namespace Magikeda

/-- A numeric cell as the pandas/NumPy code of geo.py produces it: either an
ordinary number (modelled exactly as a rational) or the missing value NaN,
which every arithmetic operation propagates. -/
inductive Val where
  | nan : Val
  | num (q : ℚ) : Val
  deriving DecidableEq

/-- Addition on float cells: NaN propagates. -/
def Val.add : Val → Val → Val
  | .num a, .num b => .num (a + b)
  | _, _ => .nan

/-- Subtraction on float cells: NaN propagates. -/
def Val.sub : Val → Val → Val
  | .num a, .num b => .num (a - b)
  | _, _ => .nan

/-- Multiplication on float cells: NaN propagates. -/
def Val.mul : Val → Val → Val
  | .num a, .num b => .num (a * b)
  | _, _ => .nan

/-- `np.abs` on a float cell: NaN propagates. -/
def Val.abs : Val → Val
  | .num a => .num |a|
  | .nan => .nan

/-- The least element of a nonempty list of rationals, folded from the head
(the value `pd.Series.min()` computes on a nonempty series). -/
def listMin (x : ℚ) (t : List ℚ) : ℚ := t.foldl min x

/-- The greatest element of a nonempty list of rationals, folded from the head
(the value `pd.Series.max()` computes on a nonempty series). -/
def listMax (x : ℚ) (t : List ℚ) : ℚ := t.foldl max x

/-- `Series.min()` of pandas as geo.py line 52 calls it: the least element of
the series, and NaN when the series is empty (pandas raises no error there). -/
def seriesMin : List ℚ → Val
  | [] => .nan
  | x :: t => .num (listMin x t)

/-- `Series.max()` of pandas as geo.py line 53 calls it: the greatest element
of the series, and NaN when the series is empty. -/
def seriesMax : List ℚ → Val
  | [] => .nan
  | x :: t => .num (listMax x t)

/-- The four shapes accepted for `plot_path_from_above`'s `aspect_ratio`
parameter (geo.py lines 58-83): the string `'fit_extremities'`, the string
`'square'`, a float (the `Ratio(r)` policy of the spec), or a 4-tuple
`(min_lat, max_lat, min_lon, max_lon)` (the spec's `Explicit` policy). -/
inductive AspectPolicy where
  | fit_extremities : AspectPolicy
  | square : AspectPolicy
  | ratio (r : ℚ) : AspectPolicy
  | box (bmin_lat bmax_lat bmin_lon bmax_lon : ℚ) : AspectPolicy
  deriving DecidableEq

/-- A resolved bounding box, in the source's variable order
`(min_lat, max_lat, min_lon, max_lon)`. -/
structure Box where
  min_lat : Val
  max_lat : Val
  min_lon : Val
  max_lon : Val
  deriving DecidableEq

/-- The bounding-box computation of `plot_path_from_above`
(geo.py lines 52-90): raw extremes of the two series, then the
`aspect_ratio` dispatch, then padding.  The final `else: raise` of the
Python dispatch is unreachable over this four-variant policy type, so the
embedded computation is total.  Note that the padding lines 86-89 of the
source run unconditionally, after every branch of the dispatch, including
the explicit 4-tuple branch. -/
def resolve_box (lon lat : List ℚ) (padding : ℚ) (aspect_ratio : AspectPolicy) : Box :=
  let min_lat := seriesMin lat
  let max_lat := seriesMax lat
  let min_lon := seriesMin lon
  let max_lon := seriesMax lon
  let boxed : Box :=
    match aspect_ratio with
    | .fit_extremities =>
        ⟨min_lat, max_lat, min_lon, max_lon⟩
    | .square =>
        ⟨min_lat, min_lat.add (((max_lon.sub min_lon).abs).mul (.num (3 / 4))),
         min_lon, max_lon⟩
    | .ratio r =>
        let max_lat := min_lat.add (((max_lon.sub min_lon).abs).mul (.num (3 / 4)))
        let min_lat := min_lat.add (((max_lat.sub min_lat).abs).mul (.num (0.5 - r / 2)))
        let max_lat := max_lat.sub (((max_lat.sub min_lat).abs).mul (.num (0.5 - r / 2)))
        ⟨min_lat, max_lat, min_lon, max_lon⟩
    | .box bmin_lat bmax_lat bmin_lon bmax_lon =>
        ⟨.num bmin_lat, .num bmax_lat, .num bmin_lon, .num bmax_lon⟩
  ⟨boxed.min_lat.sub (.num (padding * 3 / 4)),
   boxed.max_lat.add (.num (padding * 3 / 4)),
   boxed.min_lon.sub (.num padding),
   boxed.max_lon.add (.num padding)⟩

/-- `m` is the componentwise minimum of the list `xs`. -/
def IsMinOf (m : ℚ) (xs : List ℚ) : Prop := m ∈ xs ∧ ∀ q ∈ xs, m ≤ q

/-- `m` is the componentwise maximum of the list `xs`. -/
def IsMaxOf (m : ℚ) (xs : List ℚ) : Prop := m ∈ xs ∧ ∀ q ∈ xs, q ≤ m

/-- `math.radians`: degrees to radians. -/
noncomputable def radians (x : ℝ) : ℝ := x * Real.pi / 180

/-- The `haversine` function of geo.py (lines 126-140): great-circle distance
between two points given in decimal degrees. -/
noncomputable def haversine (lon1 lat1 lon2 lat2 : ℝ) : ℝ :=
  let rlon1 := radians lon1
  let rlat1 := radians lat1
  let rlon2 := radians lon2
  let rlat2 := radians lat2
  let dlon := rlon2 - rlon1
  let dlat := rlat2 - rlat1
  let a := Real.sin (dlat / 2) ^ 2 + Real.cos rlat1 * Real.cos rlat2 * Real.sin (dlon / 2) ^ 2
  let c := 2 * Real.arcsin (Real.sqrt a)
  c * 6371

/-- `_lineMagnitude` of geo.py (lines 142-145): euclidean distance between
two points. -/
noncomputable def lineMagnitude (x1 y1 x2 y2 : ℝ) : ℝ :=
  Real.sqrt ((x2 - x1) ^ 2 + (y2 - y1) ^ 2)

/-- `distance_from_point_to_segment` of geo.py (lines 148-178): minimum
distance from the point `(px, py)` to the segment `(x1, y1)-(x2, y2)`,
returning the sentinel 9999 when the segment is degenerate. -/
noncomputable def distance_from_point_to_segment (px py x1 y1 x2 y2 : ℝ) : ℝ :=
  let LineMag := lineMagnitude x1 y1 x2 y2
  if LineMag < 0.00000001 then 9999
  else
    let u1 := ((px - x1) * (x2 - x1)) + ((py - y1) * (y2 - y1))
    let u := u1 / (LineMag * LineMag)
    if u < 0.00001 ∨ u > 1 then
      let ix := lineMagnitude px py x1 y1
      let iy := lineMagnitude px py x2 y2
      if ix > iy then iy else ix
    else
      let ix := x1 + u * (x2 - x1)
      let iy := y1 + u * (y2 - y1)
      lineMagnitude px py ix iy

/-! Helper lemmas. -/

@[simp] theorem Val.add_num (a b : ℚ) : Val.add (.num a) (.num b) = .num (a + b) := rfl

@[simp] theorem Val.sub_num (a b : ℚ) : Val.sub (.num a) (.num b) = .num (a - b) := rfl

@[simp] theorem Val.mul_num (a b : ℚ) : Val.mul (.num a) (.num b) = .num (a * b) := rfl

@[simp] theorem Val.abs_num (a : ℚ) : Val.abs (.num a) = .num |a| := rfl

@[simp] theorem seriesMin_cons (x : ℚ) (t : List ℚ) : seriesMin (x :: t) = .num (listMin x t) := rfl

@[simp] theorem seriesMax_cons (x : ℚ) (t : List ℚ) : seriesMax (x :: t) = .num (listMax x t) := rfl

theorem listMin_cons (x y : ℚ) (t : List ℚ) : listMin x (y :: t) = listMin (min x y) t := rfl

theorem listMax_cons (x y : ℚ) (t : List ℚ) : listMax x (y :: t) = listMax (max x y) t := rfl

/-- Evaluation of the explicit 4-tuple branch: the supplied box, with the
unconditional padding of geo.py lines 86-89 applied on top. -/
theorem resolve_box_box_eval (lon lat : List ℚ) (p a b c d : ℚ) :
    resolve_box lon lat p (.box a b c d) =
      ⟨.num (a - p * 3 / 4), .num (b + p * 3 / 4), .num (c - p), .num (d + p)⟩ := rfl

theorem listMin_le_self (x : ℚ) (t : List ℚ) : listMin x t ≤ x := by
  induction t generalizing x with
  | nil => exact le_refl x
  | cons y t ih => exact le_trans (ih (min x y)) (min_le_left x y)

theorem self_le_listMax (x : ℚ) (t : List ℚ) : x ≤ listMax x t := by
  induction t generalizing x with
  | nil => exact le_refl x
  | cons y t ih => exact le_trans (le_max_left x y) (ih (max x y))

theorem listMin_le_listMax (x : ℚ) (t : List ℚ) : listMin x t ≤ listMax x t :=
  le_trans (listMin_le_self x t) (self_le_listMax x t)

theorem listMin_le (x : ℚ) (t : List ℚ) : ∀ q ∈ x :: t, listMin x t ≤ q := by
  induction t generalizing x with
  | nil =>
      intro q hq
      rcases List.mem_singleton.mp hq with rfl
      exact le_refl q
  | cons y t ih =>
      intro q hq
      rcases List.mem_cons.mp hq with rfl | hq'
      · exact le_trans (listMin_le_self (min q y) t) (min_le_left q y)
      · rcases List.mem_cons.mp hq' with rfl | hq''
        · exact le_trans (listMin_le_self (min x q) t) (min_le_right x q)
        · exact ih (min x y) q (List.mem_cons_of_mem _ hq'')

theorem le_listMax (x : ℚ) (t : List ℚ) : ∀ q ∈ x :: t, q ≤ listMax x t := by
  induction t generalizing x with
  | nil =>
      intro q hq
      rcases List.mem_singleton.mp hq with rfl
      exact le_refl q
  | cons y t ih =>
      intro q hq
      rcases List.mem_cons.mp hq with rfl | hq'
      · exact le_trans (le_max_left q y) (self_le_listMax (max q y) t)
      · rcases List.mem_cons.mp hq' with rfl | hq''
        · exact le_trans (le_max_right x q) (self_le_listMax (max x q) t)
        · exact ih (max x y) q (List.mem_cons_of_mem _ hq'')

theorem listMin_mem (x : ℚ) (t : List ℚ) : listMin x t ∈ x :: t := by
  induction t generalizing x with
  | nil => exact List.mem_singleton.mpr rfl
  | cons y t ih =>
      rw [listMin_cons]
      rcases List.mem_cons.mp (ih (min x y)) with h | h
      · rcases min_choice x y with h' | h'
        · rw [h, h']; exact List.mem_cons_self x (y :: t)
        · rw [h, h']; exact List.mem_cons_of_mem x (List.mem_cons_self y t)
      · exact List.mem_cons_of_mem x (List.mem_cons_of_mem y h)

theorem listMax_mem (x : ℚ) (t : List ℚ) : listMax x t ∈ x :: t := by
  induction t generalizing x with
  | nil => exact List.mem_singleton.mpr rfl
  | cons y t ih =>
      rw [listMax_cons]
      rcases List.mem_cons.mp (ih (max x y)) with h | h
      · rcases max_choice x y with h' | h'
        · rw [h, h']; exact List.mem_cons_self x (y :: t)
        · rw [h, h']; exact List.mem_cons_of_mem x (List.mem_cons_self y t)
      · exact List.mem_cons_of_mem x (List.mem_cons_of_mem y h)

/-- Evaluation of the ratio branch on a nonempty point set, for any
`r ≥ -1`: both inner absolute values resolve to nonnegative quantities. -/
theorem resolve_box_ratio_eval (c a p r : ℚ) (lon lat : List ℚ) (hr : -1 ≤ r) :
    resolve_box (c :: lon) (a :: lat) p (.ratio r) =
      ⟨.num (listMin a lat + |listMax c lon - listMin c lon| * (3 / 4) * (0.5 - r / 2) - p * 3 / 4),
       .num (listMin a lat + |listMax c lon - listMin c lon| * (3 / 4)
             - |listMax c lon - listMin c lon| * (3 / 4) * (0.5 + r / 2) * (0.5 - r / 2)
             + p * 3 / 4),
       .num (listMin c lon - p),
       .num (listMax c lon + p)⟩ := by
  have hA : (0 : ℚ) ≤ |listMax c lon - listMin c lon| * (3 / 4) := by positivity
  have h1 : |listMin a lat + |listMax c lon - listMin c lon| * (3 / 4) - listMin a lat|
      = |listMax c lon - listMin c lon| * (3 / 4) := by
    rw [show listMin a lat + |listMax c lon - listMin c lon| * (3 / 4) - listMin a lat
        = |listMax c lon - listMin c lon| * (3 / 4) by ring]
    exact abs_of_nonneg hA
  have h2 : |listMin a lat + |listMax c lon - listMin c lon| * (3 / 4)
        - (listMin a lat + |listMax c lon - listMin c lon| * (3 / 4) * (0.5 - r / 2))|
      = |listMax c lon - listMin c lon| * (3 / 4) * (0.5 + r / 2) := by
    rw [show listMin a lat + |listMax c lon - listMin c lon| * (3 / 4)
        - (listMin a lat + |listMax c lon - listMin c lon| * (3 / 4) * (0.5 - r / 2))
        = |listMax c lon - listMin c lon| * (3 / 4) * (0.5 + r / 2) by ring]
    refine abs_of_nonneg (mul_nonneg hA ?_)
    have h05 : (0.5 : ℚ) + r / 2 = (1 + r) / 2 := by ring
    rw [h05]
    linarith
  simp only [resolve_box, seriesMin_cons, seriesMax_cons, Val.sub_num, Val.abs_num,
    Val.mul_num, Val.add_num, h1, h2]

/-- Unfolding of `haversine` with its intermediate bindings substituted. -/
theorem haversine_def (lon1 lat1 lon2 lat2 : ℝ) :
    haversine lon1 lat1 lon2 lat2 =
      2 * Real.arcsin (Real.sqrt (Real.sin ((radians lat2 - radians lat1) / 2) ^ 2 +
        Real.cos (radians lat1) * Real.cos (radians lat2) *
          Real.sin ((radians lon2 - radians lon1) / 2) ^ 2)) * 6371 := rfl

/-- The latitude span the ratio branch produces, for any `r ≥ -1`:
`|max_lon - min_lon| * 3/4 * ((1+r)/2)^2` plus the two padding margins. -/
theorem resolve_box_ratio_span (c a p r : ℚ) (lon lat : List ℚ) (hr : -1 ≤ r) :
    Val.sub (resolve_box (c :: lon) (a :: lat) p (.ratio r)).max_lat
        (resolve_box (c :: lon) (a :: lat) p (.ratio r)).min_lat
      = .num (|listMax c lon - listMin c lon| * (3 / 4) * ((1 + r) / 2) ^ 2 + p * 3 / 2) := by
  rw [resolve_box_ratio_eval c a p r lon lat hr]
  simp only [Val.sub_num]
  congr 1
  ring

/-! Claims. -/

/-- C1 counterexample: under the explicit-box policy with padding 1, the
code does not return the supplied box `(0, 1, 0, 1)` unchanged — the
unconditional padding step widens it to `(-3/4, 7/4, -1, 2)`. -/
theorem C1_counterexample :
    resolve_box [5] [5] 1 (.box 0 1 0 1)
        = ⟨.num (-(3 / 4)), .num (7 / 4), .num (-1), .num 2⟩ ∧
      (⟨.num (-(3 / 4)), .num (7 / 4), .num (-1), .num 2⟩ : Box)
        ≠ ⟨.num 0, .num 1, .num 0, .num 1⟩ := by
  constructor
  · rw [resolve_box_box_eval]
    norm_num [Box.mk.injEq, Val.num.injEq]
  · norm_num [Box.mk.injEq, Val.num.injEq]

/-- C1 (amended): the explicit 4-tuple branch overwrites the extremes with
the supplied box, but the padding step is NOT skipped — the source applies
it after every branch, so the returned box is
`(a - padding*3/4, b + padding*3/4, c - padding, d + padding)`, which equals
`(a, b, c, d)` only when `padding = 0`. -/
theorem C1_explicit_box_padded (lon lat : List ℚ) (padding a b c d : ℚ) :
    resolve_box lon lat padding (.box a b c d) =
      ⟨.num (a - padding * 3 / 4), .num (b + padding * 3 / 4),
       .num (c - padding), .num (d + padding)⟩ := rfl

/-- C2 counterexample: for points with `min_lon = 0`, `max_lon = 1`,
`min_lat = max_lat = 0`, padding 0 and ratio `r = 0.5`, the code returns the
box `(3/16, 39/64, 0, 1)`; its latitude span divided by
`|max_lon - min_lon| * 3/4` is `9/16 = 0.5625`, which is not within any
floating-point tolerance of `r = 0.5` (it differs by `1/16`). -/
theorem C2_counterexample :
    resolve_box [0, 1] [0, 0] 0 (.ratio 0.5)
        = ⟨.num (3 / 16), .num (39 / 64), .num 0, .num 1⟩ ∧
      ((39 / 64 : ℚ) - 3 / 16) / (|(1 : ℚ) - 0| * (3 / 4)) = 9 / 16 ∧
      (9 / 16 : ℚ) - 0.5 = 1 / 16 ∧ ¬((1 / 16 : ℚ) < 1 / 100) := by
  refine ⟨?_, by norm_num, by norm_num, by norm_num⟩
  norm_num [resolve_box, seriesMin, seriesMax, listMin, listMax, Val.add, Val.sub, Val.mul,
    Val.abs, min_def, max_def, abs_of_nonneg, Box.mk.injEq, Val.num.injEq]

/-- C2 (amended): under `Ratio(r)` with padding 0 on a nonempty point set,
the two sequential sub-steps give a latitude span of exactly
`|max_lon - min_lon| * 3/4 * ((1+r)/2)^2`, so the span divided by
`|max_lon - min_lon| * 3/4` is `((1+r)/2)^2` — which equals `r` only at
`r = 1`, and not for `r` in `{0.25, 0.5, 0.75}`. -/
theorem C2_ratio_span (c a r : ℚ) (lon lat : List ℚ) (hr : -1 ≤ r) :
    Val.sub (resolve_box (c :: lon) (a :: lat) 0 (.ratio r)).max_lat
        (resolve_box (c :: lon) (a :: lat) 0 (.ratio r)).min_lat
      = .num (|listMax c lon - listMin c lon| * (3 / 4) * ((1 + r) / 2) ^ 2) := by
  rw [resolve_box_ratio_span c a 0 r lon lat hr]
  congr 1
  ring

/-- C2 witness. -/
theorem C2_ratio_span_witness :
    (-1 : ℚ) ≤ 1 / 2 ∧
    Val.sub (resolve_box [0, 1] [0, 0] 0 (.ratio (1 / 2))).max_lat
        (resolve_box [0, 1] [0, 0] 0 (.ratio (1 / 2))).min_lat
      = .num (27 / 64) :=
  ⟨by norm_num,
   (C2_ratio_span 0 0 (1 / 2) [1] [0] (by norm_num)).trans
     (by norm_num [listMin, listMax, min_def, max_def, abs_of_nonneg, Val.num.injEq])⟩

/-- C3 counterexample: on an empty point sequence under `FitExtremities`
with padding 1, the code raises no `EmptyInput` error — the pandas min/max
of an empty series are NaN and a NaN-valued box is returned. -/
theorem C3_counterexample :
    resolve_box [] [] 1 .fit_extremities = ⟨.nan, .nan, .nan, .nan⟩ := rfl

/-- C3 (amended): the code performs no emptiness check.  For an empty point
sequence, every padding and every ratio, the `FitExtremities`, `Square` and
`Ratio` policies all return the all-NaN box (and the explicit-box policy
returns the supplied padded box); no `EmptyInput` failure exists. -/
theorem C3_empty_gives_nan_box (padding r : ℚ) :
    resolve_box [] [] padding .fit_extremities = ⟨.nan, .nan, .nan, .nan⟩ ∧
    resolve_box [] [] padding .square = ⟨.nan, .nan, .nan, .nan⟩ ∧
    resolve_box [] [] padding (.ratio r) = ⟨.nan, .nan, .nan, .nan⟩ := by
  refine ⟨rfl, rfl, rfl⟩

/-- C4 counterexample: `Ratio(0)` and `Ratio(-1)` raise no
`InvalidAspectRatio` error — on points with extremes `lon ∈ [0,1]`,
`lat = 0` and padding 0 the code returns the boxes `(3/8, 9/16, 0, 1)` and
`(3/4, 3/4, 0, 1)` respectively. -/
theorem C4_counterexample :
    resolve_box [0, 1] [0, 0] 0 (.ratio 0)
        = ⟨.num (3 / 8), .num (9 / 16), .num 0, .num 1⟩ ∧
      resolve_box [0, 1] [0, 0] 0 (.ratio (-1))
        = ⟨.num (3 / 4), .num (3 / 4), .num 0, .num 1⟩ := by
  constructor <;>
    norm_num [resolve_box, seriesMin, seriesMax, listMin, listMax, Val.add, Val.sub, Val.mul,
      Val.abs, min_def, max_def, abs_of_nonneg, Box.mk.injEq, Val.num.injEq]

/-- C4 (amended): the float branch validates nothing: for every nonempty
point set and every padding, `Ratio(0)` produces a box of latitude span
`|max_lon - min_lon| * 3/16` plus padding margins, and `Ratio(-1)` produces
a box of latitude span equal to the padding margins alone (degenerate at
padding 0) — never an error. -/
theorem C4_nonpositive_ratio_returns_box (c a p : ℚ) (lon lat : List ℚ) :
    Val.sub (resolve_box (c :: lon) (a :: lat) p (.ratio 0)).max_lat
        (resolve_box (c :: lon) (a :: lat) p (.ratio 0)).min_lat
      = .num (|listMax c lon - listMin c lon| * (3 / 16) + p * 3 / 2) ∧
    Val.sub (resolve_box (c :: lon) (a :: lat) p (.ratio (-1))).max_lat
        (resolve_box (c :: lon) (a :: lat) p (.ratio (-1))).min_lat
      = .num (p * 3 / 2) := by
  constructor
  · rw [resolve_box_ratio_span c a p 0 lon lat (by norm_num)]
    congr 1
    ring
  · rw [resolve_box_ratio_span c a p (-1) lon lat (by norm_num)]
    congr 1
    ring

/-- C5 counterexample: an explicit box with `min >= max` on both axes,
`(1, 0, 5, 2)`, raises no `InvalidAspectRatio` error — with padding 0 the
code returns it as supplied. -/
theorem C5_counterexample :
    resolve_box [5] [5] 0 (.box 1 0 5 2) = ⟨.num 1, .num 0, .num 5, .num 2⟩ := by
  rw [resolve_box_box_eval]
  norm_num [Box.mk.injEq, Val.num.injEq]

/-- C5 (amended): the explicit 4-tuple branch validates nothing: even when
the supplied box has `min >= max` on an axis, the code returns the supplied
box with the unconditional padding applied, and no error occurs. -/
theorem C5_degenerate_explicit_box (lon lat : List ℚ) (p a b c d : ℚ)
    (hdeg : b ≤ a ∨ d ≤ c) :
    resolve_box lon lat p (.box a b c d) =
      ⟨.num (a - p * 3 / 4), .num (b + p * 3 / 4), .num (c - p), .num (d + p)⟩ := rfl

/-- C5 witness. -/
theorem C5_degenerate_explicit_box_witness :
    ((0 : ℚ) ≤ 1 ∨ (2 : ℚ) ≤ 5) ∧
    resolve_box [] [] 1 (.box 1 0 5 2)
      = ⟨.num (1 - 1 * 3 / 4), .num (0 + 1 * 3 / 4), .num (5 - 1), .num (2 + 1)⟩ :=
  ⟨Or.inl (by norm_num),
   C5_degenerate_explicit_box [] [] 1 1 0 5 2 (Or.inl (by norm_num))⟩

/-- C6: under `FitExtremities` with padding 0 the code returns exactly the
componentwise minima and maxima of the input coordinates. -/
theorem C6_fit_extremities_exact (c : ℚ) (lon : List ℚ) (a : ℚ) (lat : List ℚ) :
    resolve_box (c :: lon) (a :: lat) 0 .fit_extremities =
      ⟨.num (listMin a lat), .num (listMax a lat),
       .num (listMin c lon), .num (listMax c lon)⟩ ∧
    IsMinOf (listMin a lat) (a :: lat) ∧ IsMaxOf (listMax a lat) (a :: lat) ∧
    IsMinOf (listMin c lon) (c :: lon) ∧ IsMaxOf (listMax c lon) (c :: lon) := by
  refine ⟨?_, ⟨listMin_mem a lat, listMin_le a lat⟩, ⟨listMax_mem a lat, le_listMax a lat⟩,
    ⟨listMin_mem c lon, listMin_le c lon⟩, ⟨listMax_mem c lon, le_listMax c lon⟩⟩
  simp only [resolve_box, seriesMin_cons, seriesMax_cons, Val.sub_num, Val.add_num]
  norm_num

/-- C7: under `Square`, for any nonempty input and any padding, the returned
latitude span equals the returned longitude span times 3/4 exactly —
padding preserves the calibrated square shape because the latitude margin is
itself scaled by 3/4. -/
theorem C7_square_ratio_one (c : ℚ) (lon : List ℚ) (a : ℚ) (lat : List ℚ) (p : ℚ)
    (hlon : listMin c lon ≠ listMax c lon) (hlat : listMin a lat ≠ listMax a lat)
    (hp : 0 ≤ p) :
    Val.sub (resolve_box (c :: lon) (a :: lat) p .square).max_lat
        (resolve_box (c :: lon) (a :: lat) p .square).min_lat
      = Val.mul (Val.sub (resolve_box (c :: lon) (a :: lat) p .square).max_lon
          (resolve_box (c :: lon) (a :: lat) p .square).min_lon) (.num (3 / 4)) := by
  simp only [resolve_box, seriesMin_cons, seriesMax_cons, Val.sub_num, Val.abs_num,
    Val.mul_num, Val.add_num]
  congr 1
  rw [abs_of_nonneg (sub_nonneg.mpr (listMin_le_listMax c lon))]
  ring

/-- C7 witness. -/
theorem C7_square_ratio_one_witness :
    listMin 0 [1] ≠ listMax 0 [1] ∧ listMin 0 [1] ≠ listMax 0 [1] ∧ (0 : ℚ) ≤ 1 ∧
    Val.sub (resolve_box [0, 1] [0, 1] 1 .square).max_lat
        (resolve_box [0, 1] [0, 1] 1 .square).min_lat
      = Val.mul (Val.sub (resolve_box [0, 1] [0, 1] 1 .square).max_lon
          (resolve_box [0, 1] [0, 1] 1 .square).min_lon) (.num (3 / 4)) :=
  ⟨by norm_num [listMin, listMax, min_def, max_def],
   by norm_num [listMin, listMax, min_def, max_def], by norm_num,
   C7_square_ratio_one 0 [1] 0 [1] 1 (by norm_num [listMin, listMax, min_def, max_def])
     (by norm_num [listMin, listMax, min_def, max_def]) (by norm_num)⟩

/-- C8: on the concrete path `[(-2.2, 41.2), (-1.4, 41.1), (-1.8, 41.6)]`
with padding 1 under `FitExtremities`, the raw extremes are
`(41.1, 41.6, -2.2, -1.4)` and the returned padded box is
`(40.35, 42.35, -3.2, -0.4)`. -/
theorem C8_worked_example :
    seriesMin [41.2, 41.1, 41.6] = .num 41.1 ∧
    seriesMax [41.2, 41.1, 41.6] = .num 41.6 ∧
    seriesMin [-2.2, -1.4, -1.8] = .num (-2.2) ∧
    seriesMax [-2.2, -1.4, -1.8] = .num (-1.4) ∧
    resolve_box [-2.2, -1.4, -1.8] [41.2, 41.1, 41.6] 1 .fit_extremities
      = ⟨.num 40.35, .num 42.35, .num (-3.2), .num (-0.4)⟩ := by
  refine ⟨?_, ?_, ?_, ?_, ?_⟩ <;>
    norm_num [resolve_box, seriesMin, seriesMax, listMin, listMax, Val.add, Val.sub,
      min_def, max_def, Box.mk.injEq, Val.num.injEq]

/-- C9: the haversine great-circle distance is symmetric in its two
endpoints. -/
theorem C9_haversine_symm (lon1 lat1 lon2 lat2 : ℝ) :
    haversine lon1 lat1 lon2 lat2 = haversine lon2 lat2 lon1 lat1 := by
  rw [haversine_def, haversine_def]
  have h1 : (radians lat2 - radians lat1) / 2 = -((radians lat1 - radians lat2) / 2) := by
    ring
  have h2 : (radians lon2 - radians lon1) / 2 = -((radians lon1 - radians lon2) / 2) := by
    ring
  rw [h1, h2, Real.sin_neg, Real.sin_neg, neg_sq, neg_sq,
    mul_comm (Real.cos (radians lat1))]

/-- C10: whenever the two endpoints of the segment are closer than `1e-8`
apart, `distance_from_point_to_segment` takes the guard branch and returns
the sentinel 9999, so the division by the segment magnitude is never
reached. -/
theorem C10_degenerate_segment_sentinel (px py x1 y1 x2 y2 : ℝ)
    (h : lineMagnitude x1 y1 x2 y2 < 0.00000001) :
    distance_from_point_to_segment px py x1 y1 x2 y2 = 9999 := by
  unfold distance_from_point_to_segment
  simp [h]

/-- C10 witness. -/
theorem C10_degenerate_segment_sentinel_witness :
    lineMagnitude 0 0 0 0 < 0.00000001 ∧
    distance_from_point_to_segment 1 2 0 0 0 0 = 9999 := by
  have h : lineMagnitude 0 0 0 0 < 0.00000001 := by
    unfold lineMagnitude
    norm_num [Real.sqrt_zero]
  exact ⟨h, C10_degenerate_segment_sentinel 1 2 0 0 0 0 h⟩

end Magikeda
